import Mathlib

/-!
Verification of the MTAirCompressor CSC polling-and-control engine
(`python/lsst/ts/MTAirCompressor/aircompressor_csc.py`).

Shallow embedding: the pure helper `_statusBits` becomes a Lean function on
association lists (Python dict in insertion order); the stateful telemetry
loop becomes an explicit state machine; Modbus transport calls are modelled
as explicit outcome parameters; raised exceptions become `Except` values.
Register values are natural numbers; the float division `/ 10.0` of the
analog data is modelled over `ℚ`.
-/

namespace MTAirCompressor

/-! ## Bit-field decoder `_statusBits` (source lines 394-412)

Python:
```
ret = {}
for f in fields:
    if f is not None:
        ret[f] = value & 0x0001
    value >>= 1
return ret
```
A Python dict is modelled as an association list in insertion order;
`dictInsert` is `ret[f] = v` (overwrite keeps the original position,
otherwise append). -/

def dictInsert : List (String × Nat) → String → Nat → List (String × Nat)
  | [], k, v => [(k, v)]
  | (k₂, v₂) :: rest, k, v =>
      if k₂ = k then (k₂, v) :: rest else (k₂, v₂) :: dictInsert rest k v

def statusBitsGo : List (Option String) → Nat → List (String × Nat) → List (String × Nat)
  | [], _, ret => ret
  | none :: fs, value, ret => statusBitsGo fs (value >>> 1) ret
  | some f :: fs, value, ret => statusBitsGo fs (value >>> 1) (dictInsert ret f (value &&& 1))

def _statusBits (fields : List (Option String)) (value : Nat) : List (String × Nat) :=
  statusBitsGo fields value []

/-- Non-accumulator form of the decoder loop, used to reason about
`_statusBits` when the present field names are distinct (the BitFieldSpec
invariant: field names are unique across a record). -/
def sbits : List (Option String) → Nat → List (String × Nat)
  | [], _ => []
  | none :: fs, v => sbits fs (v >>> 1)
  | some f :: fs, v => (f, v &&& 1) :: sbits fs (v >>> 1)

/-! ## Modbus error classification (source lines 39-64)

`ModbusError.__init__` builds a message from the exception response's
`original_code` (4: read exception, 6: write exception, otherwise a generic
function-call message) and calls `super().__init__(what + " " + message)`.
The f-string pieces `0x{address:04x}` (lowercase hex padded to width 4) and
the decimal rendering of the codes are embedded as `hex4` and `decStr`. -/

structure ExceptionResponse where
  original_code : Nat
  function_code : Nat
  exception_code : Nat
deriving DecidableEq

def hexDigit (n : Nat) : Char :=
  if n < 10 then Char.ofNat (48 + n) else Char.ofNat (87 + n)

def hexDigitsAux : Nat → Nat → List Char
  | 0, _ => []
  | fuel + 1, n =>
      if n = 0 then [] else hexDigitsAux fuel (n / 16) ++ [hexDigit (n % 16)]

def hexDigits (n : Nat) : List Char :=
  hexDigitsAux n n

/-- Python `f"{n:04x}"` for a natural number: lowercase hex, left-padded with
zeros to at least four digits. -/
def hex4 (n : Nat) : String :=
  String.mk (List.replicate (4 - (hexDigits n).length) '0' ++ hexDigits n)

def decDigitsAux : Nat → Nat → List Char
  | 0, _ => []
  | fuel + 1, n =>
      if n = 0 then [] else decDigitsAux fuel (n / 10) ++ [Char.ofNat (48 + n % 10)]

/-- Python `str(n)` for a natural number. -/
def decStr (n : Nat) : String :=
  if n = 0 then "0" else String.mk (decDigitsAux n n)

/-- The local variable `message` of `ModbusError.__init__`. -/
def modbusErrorMessage (e : ExceptionResponse) (address : Nat) : String :=
  if e.original_code = 4 then
    "Cannot address 0x" ++ hex4 address ++ ": " ++ decStr e.exception_code
  else if e.original_code = 6 then
    "Cannot write register address 0x" ++ hex4 address ++ ": " ++ decStr e.exception_code
  else
    "Cannot call function " ++ decStr e.function_code ++ " : " ++ decStr e.exception_code
      ++ ", address 0x" ++ hex4 address

/-- A raised `ModbusError`: the `what` argument, the Modbus exception
response and the address passed at the raise site. -/
structure RaisedModbusError where
  what : String
  exception : ExceptionResponse
  address : Nat
deriving DecidableEq

/-- The full string handed to `base.ExpectedError` (`what + " " + message`). -/
def RaisedModbusError.message (err : RaisedModbusError) : String :=
  err.what ++ " " ++ modbusErrorMessage err.exception err.address

/-! ## Transport primitives

`client.write_register(address, value)` either acknowledges or returns an
exception response (`isError()`); `client.read_holding_registers(address,
count)` either returns the registers or an exception response. -/

inductive WriteResult
  | ack
  | error (e : ExceptionResponse)
deriving DecidableEq

/-! ## `begin_start` (source lines 130-151)

After creating the Modbus client, `begin_start` logs an error when
`client.connect()` returns `False`, and then unconditionally creates the
telemetry task (`asyncio.create_task(self.telemetry_loop())`). -/

structure BeginStartResult where
  loggedConnectError : Bool
  telemetryTaskSpawned : Bool
deriving DecidableEq

def begin_start (connectResult : Bool) : BeginStartResult :=
  { loggedConnectError := !connectResult
    telemetryTaskSpawned := true }

/-! ## `end_disable` (source lines 160-165)

Writes `0xFF00` to register `0x12B`; raises `ModbusError` if the write
returned an error — in that case the `self.telemetry_task.cancel()` on the
following line is never reached — and cancels the telemetry task otherwise. -/

structure EndDisableEffects where
  wrote : Nat × Nat
  raised : Option RaisedModbusError
  telemetryTaskCancelled : Bool
deriving DecidableEq

def end_disable (write_register : Nat → Nat → WriteResult) : EndDisableEffects :=
  match write_register 0x12B 0xFF00 with
  | .ack => ⟨(0x12B, 0xFF00), none, true⟩
  | .error e => ⟨(0x12B, 0xFF00), some ⟨"Cannot power off compressor", e, 0x12B⟩, false⟩

/-! ## `do_reset` (source lines 167-174)

If `self.client is None` the command returns at once; otherwise it writes
`0xFF01` to register `0x12D`, and on an error response calls
`self.fail("Cannot reset compressor")` and raises `ModbusError`. -/

structure ResetEffects where
  wrote : Option (Nat × Nat)
  failReported : Bool
  raised : Option RaisedModbusError
deriving DecidableEq

def do_reset (client : Option (Nat → Nat → WriteResult)) : ResetEffects :=
  match client with
  | none => ⟨none, false, none⟩
  | some write_register =>
    match write_register 0x12D 0xFF01 with
    | .ack => ⟨some (0x12D, 0xFF01), false, none⟩
    | .error e => ⟨some (0x12D, 0xFF01), true, some ⟨"Cannot reset compressor", e, 0x12D⟩⟩

/-! ## `update_analog_data` (source lines 319-345)

Reads one register at `0x1E` and fourteen registers at `0x22` and publishes
the analog telemetry record; the only fields divided by `10.0` are
`motorCurrent` (register 1 of the second read), `motorInput` (6),
`compressorPowerConsumption` (7), `compressorVolume` (9) and `groupVolume`
(10).  Register values are naturals; the float division is modelled in `ℚ`. -/

structure AnalogTelemetry where
  waterLevel : ℚ
  targetSpeed : ℚ
  motorCurrent : ℚ
  heatsinkTemperature : ℚ
  dclinkVoltage : ℚ
  motorSpeedPercentage : ℚ
  motorSpeedRPM : ℚ
  motorInput : ℚ
  compressorPowerConsumption : ℚ
  compressorVolumePercentage : ℚ
  compressorVolume : ℚ
  groupVolume : ℚ
  stage1OutputPressure : ℚ
  linePressure : ℚ
  stage1OutputTemperature : ℚ
deriving DecidableEq

def update_analog_data (analog1 : Nat) (analog2 : Fin 14 → Nat) : AnalogTelemetry :=
  { waterLevel := analog1
    targetSpeed := analog2 0
    motorCurrent := (analog2 1 : ℚ) / 10
    heatsinkTemperature := analog2 2
    dclinkVoltage := analog2 3
    motorSpeedPercentage := analog2 4
    motorSpeedRPM := analog2 5
    motorInput := (analog2 6 : ℚ) / 10
    compressorPowerConsumption := (analog2 7 : ℚ) / 10
    compressorVolumePercentage := analog2 8
    compressorVolume := (analog2 9 : ℚ) / 10
    groupVolume := (analog2 10 : ℚ) / 10
    stage1OutputPressure := analog2 11
    linePressure := analog2 12
    stage1OutputTemperature := analog2 13 }

/-! ## `update_errorsWarnings` (source lines 214-303)

Reads 16 registers from `0x63`; on an error response raises
`ModbusError("Cannot read errors and warnings", errorsWarnings, 0x30)` —
note the address `0x30` at the raise site on line 218, although the read is
from `0x63` — and otherwise publishes the errors record (registers 0, 1, 6)
and the warnings record (registers 8, 9, 14) through `_statusBits`. -/

def errorsE400Fields : List (Option String) :=
  [some "powerSupplyFailureE400", some "emergencyStopActivatedE401",
   some "highMotorTemperatureM1E402", some "compressorDischargeTemperatureE403",
   some "startTemperatureLowE404", some "dischargeOverPressureE405",
   some "linePressureSensorB1E406", some "dischargePressureSensorB2E407",
   some "dischargeTemperatureSensorR2E408", some "controllerHardwareE409",
   some "coolingE410", some "oilPressureLowE411", some "externalFaultE412",
   some "dryer413", some "condensateDrainE414", some "noPressureBuildUpE415"]

def errorsE416Fields : List (Option String) :=
  [some "heavyStartupE416"]

def errorsE500Fields : List (Option String) :=
  [some "preAdjustmentVSDE500", some "preAdjustmentE501", some "lockedVSDE502",
   some "writeFaultVSDE503", some "communicationVSDE504", some "stopPressedVSDE505",
   some "stopInputEMVSDE506", some "readFaultVSDE507", some "stopInputVSDEME508",
   some "seeVSDDisplayE509", some "speedBelowMinLimitE510"]

def warningsA600Fields : List (Option String) :=
  [some "serviceDueA600", some "dischargeOverPressureA601",
   some "compressorDischargeTemperatureA602", none, none, none,
   some "linePressureHighA606", some "controllerBatteryEmptyA607",
   some "dryerA608", some "condensateDrainA609", some "fineSeparatorA610",
   some "airFilterA611", some "oilFilterA612", some "oilLevelLowA613",
   some "oilTemperatureHighA614", some "externalWarningA615"]

def warningsA616Fields : List (Option String) :=
  [some "motorLuricationSystemA616", some "input1A617", some "input2A618",
   some "input3A619", some "input4A620", some "input5A621", some "input6A622",
   some "fullSDCardA623"]

def warningsA700Fields : List (Option String) :=
  [some "temperatureHighVSDA700"]

def update_errorsWarnings (read : Nat → Nat → Except ExceptionResponse (List Nat)) :
    Except RaisedModbusError (List (String × Nat) × List (String × Nat)) :=
  match read 0x63 16 with
  | .error e => .error ⟨"Cannot read errors and warnings", e, 0x30⟩
  | .ok regs =>
      .ok (_statusBits errorsE400Fields (regs.getD 0 0)
             ++ _statusBits errorsE416Fields (regs.getD 1 0)
             ++ _statusBits errorsE500Fields (regs.getD 6 0),
           _statusBits warningsA600Fields (regs.getD 8 0)
             ++ _statusBits warningsA616Fields (regs.getD 9 0)
             ++ _statusBits warningsA700Fields (regs.getD 14 0))

/-! ## `telemetry_loop` (source lines 364-391)

```
timerUpdate = 0
while True:
    try:
        await self.update_status()
        await self.update_errorsWarnings()
        await self.update_analog_data()
        if self.first_run:
            await self.update_compressor_info()
            self.first_run = False
        if timerUpdate <= 0:
            await self.update_timer()
            timerUpdate = 60
        else:
            timerUpdate -= 1
    except ModbusError as me:
        self.fail(None, str(me))
        self.first_run = True
    except Exception as er:
        print(...); self.log.exception(er)
        self.first_run = True
    await asyncio.sleep(1)
```

The five `update_*` awaits are modelled by a per-cycle environment giving
each one an outcome: success, a raised `ModbusError`, or any other raised
`Exception`.  A cycle is a pure function of the loop state (`self.first_run`
and the local `timerUpdate`) and that environment; the error branch of the
`try` carries the state as mutated up to the raise point, exactly as the
Python object state would be. -/

inductive ReadOutcome
  | ok
  | modbusErr
  | otherErr
deriving DecidableEq

structure CycleEnv where
  status : ReadOutcome
  errorsWarnings : ReadOutcome
  analog : ReadOutcome
  info : ReadOutcome
  timer : ReadOutcome
deriving DecidableEq

/-- The all-reads-succeed environment. -/
def envOk : CycleEnv :=
  ⟨.ok, .ok, .ok, .ok, .ok⟩

structure LoopState where
  first_run : Bool
  timerUpdate : Int
deriving DecidableEq

inductive Group
  | status
  | errorsWarnings
  | analog
  | info
  | timer
deriving DecidableEq

inductive CaughtErr
  | modbus
  | other
deriving DecidableEq

/-- Outcome of one `await self.update_*()` call. -/
def attempt : ReadOutcome → Except CaughtErr Unit
  | .ok => .ok ()
  | .modbusErr => .error .modbus
  | .otherErr => .error .other

/-- `if self.first_run: await self.update_compressor_info(); self.first_run = False`. -/
def infoStep (s : LoopState) (env : CycleEnv) :
    List Group × Except (CaughtErr × LoopState) LoopState :=
  if s.first_run then
    match attempt env.info with
    | .error e => ([.info], .error (e, s))
    | .ok _ => ([.info], .ok { s with first_run := false })
  else ([], .ok s)

/-- `if timerUpdate <= 0: await self.update_timer(); timerUpdate = 60
else: timerUpdate -= 1`. -/
def timerStep (s : LoopState) (env : CycleEnv) :
    List Group × Except (CaughtErr × LoopState) LoopState :=
  if s.timerUpdate ≤ 0 then
    match attempt env.timer with
    | .error e => ([.timer], .error (e, s))
    | .ok _ => ([.timer], .ok { s with timerUpdate := 60 })
  else ([], .ok { s with timerUpdate := s.timerUpdate - 1 })

/-- The `try` block of one loop iteration: the list of reads attempted, and
either the state after the block or the caught error kind together with the
state as mutated up to the raise. -/
def tryBody (s : LoopState) (env : CycleEnv) :
    List Group × Except (CaughtErr × LoopState) LoopState :=
  match attempt env.status with
  | .error e => ([.status], .error (e, s))
  | .ok _ =>
    match attempt env.errorsWarnings with
    | .error e => ([.status, .errorsWarnings], .error (e, s))
    | .ok _ =>
      match attempt env.analog with
      | .error e => ([.status, .errorsWarnings, .analog], .error (e, s))
      | .ok _ =>
        match infoStep s env with
        | (gs, .error es) => ([.status, .errorsWarnings, .analog] ++ gs, .error es)
        | (gs, .ok s₁) =>
          match timerStep s₁ env with
          | (gt, .error es) =>
              ([.status, .errorsWarnings, .analog] ++ gs ++ gt, .error es)
          | (gt, .ok s₂) =>
              ([.status, .errorsWarnings, .analog] ++ gs ++ gt, .ok s₂)

structure CycleOutcome where
  attempted : List Group
  caught : Option CaughtErr
  failReported : Bool
  loggedException : Bool
  escaped : Bool
  sleptSeconds : Nat
  state : LoopState
deriving DecidableEq

/-- One full iteration of the `while True` body: the `try` block, the two
`except` clauses (the `ModbusError` one calls `self.fail` and sets
`self.first_run = True`; the `Exception` one logs and sets
`self.first_run = True`), and the closing `await asyncio.sleep(1)`.
`escaped` records an exception leaving the iteration uncaught: both raise
kinds the body can produce are handled, so it is `false` in every branch. -/
def cycle (s : LoopState) (env : CycleEnv) : CycleOutcome :=
  match tryBody s env with
  | (gs, .ok s₂) => ⟨gs, none, false, false, false, 1, s₂⟩
  | (gs, .error (.modbus, sr)) =>
      ⟨gs, some .modbus, true, false, false, 1, { sr with first_run := true }⟩
  | (gs, .error (.other, sr)) =>
      ⟨gs, some .other, false, true, false, 1, { sr with first_run := true }⟩

/-- State at the start of cycle `n` (cycles numbered from 0): `first_run` is
`True` from `__init__` and the local `timerUpdate` starts at 0. -/
def runState (env : Nat → CycleEnv) : Nat → LoopState
  | 0 => ⟨true, 0⟩
  | n + 1 => (cycle (runState env n) (env n)).state

def cycleAt (env : Nat → CycleEnv) (n : Nat) : CycleOutcome :=
  cycle (runState env n) (env n)

def attemptedAt (env : Nat → CycleEnv) (n : Nat) : List Group :=
  (cycleAt env n).attempted

/-- Environment in which every read of every cycle succeeds. -/
def okEnv : Nat → CycleEnv :=
  fun _ => envOk

/-- `timerUpdate` at the start of cycle `n` when all reads succeed. -/
def timerUpdateAt (n : Nat) : Int :=
  (runState okEnv n).timerUpdate

/-- Whether cycle `n` (numbered from 0) performs a timer read when all reads
succeed. -/
def readsTimerAt (n : Nat) : Bool :=
  decide (Group.timer ∈ attemptedAt okEnv n)

lemma dictInsert_fresh (ret : List (String × Nat)) (k : String) (v : Nat)
    (h : k ∉ ret.map Prod.fst) : dictInsert ret k v = ret ++ [(k, v)] := by
  induction ret with
  | nil => rfl
  | cons p rest ih =>
    simp only [List.map_cons, List.mem_cons] at h
    push_neg at h
    have hne : p.1 ≠ k := fun hh => h.1 hh.symm
    simp [dictInsert, hne, ih h.2]

lemma sbits_keys (fields : List (Option String)) (v : Nat) :
    (sbits fields v).map Prod.fst = fields.filterMap id := by
  induction fields generalizing v with
  | nil => simp [sbits]
  | cons o fs ih =>
    cases o with
    | none => simp [sbits, ih]
    | some f => simp [sbits, ih]

lemma statusBitsGo_eq (fields : List (Option String)) (v : Nat) (ret : List (String × Nat))
    (hnodup : (fields.filterMap id).Nodup)
    (hdisj : ∀ f, f ∈ fields.filterMap id → f ∉ ret.map Prod.fst) :
    statusBitsGo fields v ret = ret ++ sbits fields v := by
  induction fields generalizing v ret with
  | nil => simp [statusBitsGo, sbits]
  | cons o fs ih =>
    cases o with
    | none =>
      rw [statusBitsGo, sbits, ih]
      · simpa using hnodup
      · intro f hf
        exact hdisj f (by simpa using hf)
    | some g =>
      have hg : g ∉ ret.map Prod.fst := hdisj g (by simp)
      have hcons : (g :: fs.filterMap id).Nodup := by simpa using hnodup
      have hnodup₂ : (fs.filterMap id).Nodup := hcons.of_cons
      have hgfs : g ∉ fs.filterMap id := (List.nodup_cons.mp hcons).1
      rw [statusBitsGo, dictInsert_fresh ret g (v &&& 1) hg,
        ih (v >>> 1) (ret ++ [(g, v &&& 1)]) hnodup₂, List.append_assoc]
      · rfl
      · intro f hf
        simp only [List.map_append, List.mem_append, List.map_cons, List.map_nil,
          List.mem_singleton]
        rintro (h₁ | h₂)
        · exact hdisj f (by simpa using Or.inr hf) h₁
        · exact hgfs (h₂ ▸ hf)

lemma statusBits_eq_sbits (fields : List (Option String)) (v : Nat)
    (hnodup : (fields.filterMap id).Nodup) : _statusBits fields v = sbits fields v := by
  rw [_statusBits, statusBitsGo_eq fields v [] hnodup (by simp)]
  simp

lemma sbits_lookup (fields : List (Option String)) (v : Nat)
    (hnodup : (fields.filterMap id).Nodup) :
    ∀ i, (hi : i < fields.length) → ∀ f, fields.get ⟨i, hi⟩ = some f →
      List.lookup f (sbits fields v) = some ((v >>> i) &&& 1) := by
  induction fields generalizing v with
  | nil => intro i hi; simp at hi
  | cons o fs ih =>
    intro i hi f hf
    cases o with
    | some g =>
      have hcons : (g :: fs.filterMap id).Nodup := by simpa using hnodup
      have hnodup₂ : (fs.filterMap id).Nodup := hcons.of_cons
      cases i with
      | zero =>
        simp only [List.get] at hf
        obtain rfl : g = f := by injection hf
        simp [sbits]
      | succ j =>
        simp only [List.get] at hf
        have hj : j < fs.length := by
          simpa using Nat.lt_of_succ_lt_succ hi
        have hmem : f ∈ fs.filterMap id := by
          refine List.mem_filterMap.mpr ⟨some f, ?_, rfl⟩
          exact hf ▸ List.get_mem fs j hj
        have hgfs : g ∉ fs.filterMap id := (List.nodup_cons.mp hcons).1
        have hne : f ≠ g := fun hh => hgfs (hh ▸ hmem)
        have hrec : List.lookup f (sbits fs (v >>> 1)) = some (((v >>> 1) >>> j) &&& 1) :=
          ih (v >>> 1) hnodup₂ j hj f hf
        have hbeq : (f == g) = false := beq_eq_false_iff_ne.mpr hne
        rw [sbits, List.lookup_cons, hbeq]
        show List.lookup f (sbits fs (v >>> 1)) = some ((v >>> (j + 1)) &&& 1)
        rw [hrec, ← Nat.shiftRight_add, Nat.add_comm]
    | none =>
      cases i with
      | zero => simp [List.get] at hf
      | succ j =>
        simp only [List.get] at hf
        have hj : j < fs.length := by
          simpa using Nat.lt_of_succ_lt_succ hi
        have hrec : List.lookup f (sbits fs (v >>> 1)) = some (((v >>> 1) >>> j) &&& 1) :=
          ih (v >>> 1) (by simpa using hnodup) j hj f hf
        rw [sbits, hrec, ← Nat.shiftRight_add, Nat.add_comm]

/-- C1: for every 16-bit value `v` and every field-name list of length at most
16 with distinct present names (the BitFieldSpec invariant), `_statusBits`
produces exactly one key per present name — absent (`none`) positions produce
no key — and the present name at position `i` maps to the bit
`(v >>> i) &&& 1` (the Python value `value & 0x0001`, whose truth value is
`((v >> i) & 1) != 0`); absent positions still consume a bit position, as the
shift count `i` ranges over all positions. -/
theorem statusBits_decodes_bits (fields : List (Option String)) (v : Nat)
    (hlen : fields.length ≤ 16) (hv : v < 2 ^ 16)
    (hnodup : (fields.filterMap id).Nodup) :
    ((_statusBits fields v).map Prod.fst = fields.filterMap id) ∧
    (∀ i, (hi : i < fields.length) → ∀ f, fields.get ⟨i, hi⟩ = some f →
      List.lookup f (_statusBits fields v) = some ((v >>> i) &&& 1) ∧
      (((v >>> i) &&& 1 ≠ 0) ↔ v.testBit i)) := by
  rw [statusBits_eq_sbits fields v hnodup]
  refine ⟨sbits_keys fields v, ?_⟩
  intro i hi f hf
  refine ⟨sbits_lookup fields v hnodup i hi f hf, ?_⟩
  rw [Nat.testBit_to_div_mod, Nat.and_one_is_mod, Nat.shiftRight_eq_div_pow]
  simp only [decide_eq_true_eq, ne_eq]
  omega

/-- Witness for C1 at a concrete input: fields `[some "a", none, some "b"]`,
value `5 = 0b101`: key list is `["a", "b"]`, `"a"` maps to bit 0 (= 1) and
`"b"` to bit 2 (= 1); the absent middle position consumed bit 1. -/
theorem statusBits_decodes_bits_witness :
    (((_statusBits [some "a", none, some "b"] 5).map Prod.fst =
        ([some "a", none, some "b"] : List (Option String)).filterMap id) ∧
    (∀ i, (hi : i < ([some "a", none, some "b"] : List (Option String)).length) →
      ∀ f, ([some "a", none, some "b"] : List (Option String)).get ⟨i, hi⟩ = some f →
      List.lookup f (_statusBits [some "a", none, some "b"] 5) = some ((5 >>> i) &&& 1) ∧
      (((5 >>> i) &&& 1 ≠ 0) ↔ (5 : Nat).testBit i))) :=
  statusBits_decodes_bits [some "a", none, some "b"] 5 (by decide) (by decide) (by decide)

/-! ## Cycle characterization lemmas -/

/-- A cycle in which every read succeeds: all of status, errors/warnings and
analog are attempted, identity is attempted iff `first_run`, the timer is
attempted iff the countdown is `≤ 0`, nothing is caught, `first_run` is
cleared and the countdown is reset to 60 or decremented. -/
lemma cycle_envOk (s : LoopState) :
    cycle s envOk =
      ⟨[Group.status, Group.errorsWarnings, Group.analog]
          ++ (if s.first_run then [Group.info] else [])
          ++ (if s.timerUpdate ≤ 0 then [Group.timer] else []),
        none, false, false, false, 1,
        ⟨false, if s.timerUpdate ≤ 0 then 60 else s.timerUpdate - 1⟩⟩ := by
  by_cases hf : s.first_run <;> by_cases ht : s.timerUpdate ≤ 0 <;>
    simp [cycle, tryBody, infoStep, timerStep, attempt, envOk, hf, ht]

/-- Both raise kinds the try block can produce are handled by the two
`except` clauses, and every iteration ends in the 1-second sleep. -/
lemma cycle_escaped_slept (s : LoopState) (e : CycleEnv) :
    (cycle s e).escaped = false ∧ (cycle s e).sleptSeconds = 1 := by
  rcases htb : tryBody s e with ⟨gs, r⟩
  unfold cycle
  rw [htb]
  cases r with
  | ok s₂ => simp
  | error p =>
    obtain ⟨c, sr⟩ := p
    cases c <;> simp

/-- Every cycle attempts the status read first, whatever the state and
whatever the outcomes. -/
lemma status_mem_attempted (s : LoopState) (e : CycleEnv) :
    Group.status ∈ (cycle s e).attempted := by
  rcases e with ⟨st, ew, an, inf, tm⟩
  cases st with
  | modbusErr => simp [cycle, tryBody, attempt]
  | otherErr => simp [cycle, tryBody, attempt]
  | ok =>
    cases ew with
    | modbusErr => simp [cycle, tryBody, attempt]
    | otherErr => simp [cycle, tryBody, attempt]
    | ok =>
      cases an with
      | modbusErr => simp [cycle, tryBody, attempt]
      | otherErr => simp [cycle, tryBody, attempt]
      | ok =>
        by_cases hf : s.first_run <;> by_cases ht : s.timerUpdate ≤ 0 <;>
          cases inf <;> cases tm <;>
          simp [cycle, tryBody, infoStep, timerStep, attempt, hf, ht]

/-- Each cycle either catches an error — leaving `first_run` true and the
countdown untouched — or completes, clearing `first_run` and resetting or
decrementing the countdown. -/
lemma cycle_state_spec (s : LoopState) (e : CycleEnv) :
    ((cycle s e).caught.isSome = true ∧ (cycle s e).state = ⟨true, s.timerUpdate⟩) ∨
    ((cycle s e).caught = none ∧
      (cycle s e).state = ⟨false, if s.timerUpdate ≤ 0 then 60 else s.timerUpdate - 1⟩) := by
  rcases e with ⟨st, ew, an, inf, tm⟩
  cases st with
  | modbusErr => simp [cycle, tryBody, attempt]
  | otherErr => simp [cycle, tryBody, attempt]
  | ok =>
    cases ew with
    | modbusErr => simp [cycle, tryBody, attempt]
    | otherErr => simp [cycle, tryBody, attempt]
    | ok =>
      cases an with
      | modbusErr => simp [cycle, tryBody, attempt]
      | otherErr => simp [cycle, tryBody, attempt]
      | ok =>
        by_cases hf : s.first_run <;> by_cases ht : s.timerUpdate ≤ 0 <;>
          cases inf <;> cases tm <;>
          simp [cycle, tryBody, infoStep, timerStep, attempt, hf, ht]

lemma timer_mem_cycle_envOk (s : LoopState) :
    Group.timer ∈ (cycle s envOk).attempted ↔ s.timerUpdate ≤ 0 := by
  rw [cycle_envOk]
  by_cases hf : s.first_run <;> by_cases ht : s.timerUpdate ≤ 0 <;> simp [hf, ht]

lemma info_mem_cycle_envOk (s : LoopState) :
    Group.info ∈ (cycle s envOk).attempted ↔ s.first_run = true := by
  rw [cycle_envOk]
  by_cases hf : s.first_run <;> by_cases ht : s.timerUpdate ≤ 0 <;> simp [hf, ht]

/-- The countdown stays within `[0, 60]` whatever the outcomes. -/
lemma timerUpdate_bounds (env : Nat → CycleEnv) (n : Nat) :
    0 ≤ (runState env n).timerUpdate ∧ (runState env n).timerUpdate ≤ 60 := by
  induction n with
  | zero => simp [runState]
  | succ n ih =>
    obtain ⟨ih₁, ih₂⟩ := ih
    rw [runState]
    rcases cycle_state_spec (runState env n) (env n) with ⟨_, hst⟩ | ⟨_, hst⟩
    · rw [hst]
      exact ⟨ih₁, ih₂⟩
    · rw [hst]
      dsimp only
      split_ifs <;> omega

/-- Over `j` consecutive all-success cycles the countdown decreases by one
per cycle, as long as it does not hit zero. -/
lemma timer_decrements (env : Nat → CycleEnv) (n : Nat) :
    ∀ j : Nat, (∀ i, i < j → env (n + i) = envOk) →
      (j : Int) ≤ (runState env n).timerUpdate →
      (runState env (n + j)).timerUpdate = (runState env n).timerUpdate - j := by
  intro j
  induction j with
  | zero => intro _ _; simp
  | succ j ih =>
    intro hok hj
    have hih := ih (fun i hi => hok i (by omega)) (by omega)
    have henv : env (n + j) = envOk := hok j (by omega)
    have hstep : runState env (n + (j + 1))
        = (cycle (runState env (n + j)) (env (n + j))).state := by
      rw [show n + (j + 1) = (n + j) + 1 from by omega]
      rfl
    have hpos : ¬ (runState env (n + j)).timerUpdate ≤ 0 := by
      rw [hih]
      omega
    rw [hstep, henv, cycle_envOk]
    dsimp only
    rw [if_neg hpos, hih]
    omega

/-- Closed form of the countdown at the start of cycle `n` when every read
succeeds: `0` when `n % 61 = 0`, else `61 - n % 61`. -/
lemma timerUpdateAt_closed (n : Nat) :
    timerUpdateAt n = if n % 61 = 0 then (0 : Int) else 61 - ((n % 61 : Nat) : Int) := by
  induction n with
  | zero => simp [timerUpdateAt, runState]
  | succ n ih =>
    have hstep : timerUpdateAt (n + 1)
        = if timerUpdateAt n ≤ 0 then (60 : Int) else timerUpdateAt n - 1 := by
      unfold timerUpdateAt
      rw [runState, show okEnv n = envOk from rfl, cycle_envOk]
    rw [hstep, ih]
    have h61 : n % 61 < 61 := Nat.mod_lt _ (by omega)
    split_ifs <;> omega

lemma timerUpdateAt_step (n : Nat) :
    timerUpdateAt (n + 1)
      = if timerUpdateAt n ≤ 0 then (60 : Int) else timerUpdateAt n - 1 := by
  unfold timerUpdateAt
  rw [runState, show okEnv n = envOk from rfl, cycle_envOk]

lemma readsTimerAt_iff_le (n : Nat) : readsTimerAt n = true ↔ timerUpdateAt n ≤ 0 := by
  unfold readsTimerAt attemptedAt cycleAt timerUpdateAt
  rw [show okEnv n = envOk from rfl]
  simp [timer_mem_cycle_envOk]

lemma readsTimerAt_eq (n : Nat) : readsTimerAt n = decide (n % 61 = 0) := by
  have hc := timerUpdateAt_closed n
  have h61 : n % 61 < 61 := Nat.mod_lt _ (by omega)
  have hiff := readsTimerAt_iff_le n
  by_cases h0 : n % 61 = 0
  · rw [if_pos h0] at hc
    have : readsTimerAt n = true := hiff.mpr (by omega)
    simp [this, h0]
  · rw [if_neg h0] at hc
    have : ¬ readsTimerAt n = true := fun h => by
      have := hiff.mp h
      omega
    simp only [Bool.not_eq_true] at this
    simp [this, h0]

/-- Interval version of the countdown: from any state with every read of the
next 61 cycles succeeding, the timer read happens within 61 cycles. -/
lemma timer_read_within (env : Nat → CycleEnv) (n : Nat)
    (hok : ∀ j, j ≤ 60 → env (n + j) = envOk) :
    ∃ k, k ≤ 60 ∧ Group.timer ∈ attemptedAt env (n + k) := by
  obtain ⟨h0, h60⟩ := timerUpdate_bounds env n
  refine ⟨(runState env n).timerUpdate.toNat, by omega, ?_⟩
  have hdec := timer_decrements env n (runState env n).timerUpdate.toNat
    (fun i hi => hok i (by omega)) (by omega)
  have henv : env (n + (runState env n).timerUpdate.toNat) = envOk := hok _ (by omega)
  unfold attemptedAt cycleAt
  rw [henv, timer_mem_cycle_envOk]
  omega

/-! ## Claim theorems -/

/-- C2 counterexample: with cycles numbered from 0 and every read
succeeding, the first cycle performs a timer read, but the next one is at
cycle 61 — the 60 cycles 1..60 all perform none.  Under the claim, exactly
the 59 cycles following the first read perform no timer read, which would
place the second read at cycle 60; the code does not read there. -/
theorem telemetry_timer_countdown_cex :
    readsTimerAt 0 = true ∧ readsTimerAt 60 = false ∧ readsTimerAt 61 = true := by
  refine ⟨?_, ?_, ?_⟩ <;> simp [readsTimerAt_eq]

/-- C2 (amended): the countdown starts at 0, so the first cycle performs a
timer read and resets the countdown to 60; exactly the following 60 cycles
perform no timer read, and the 61st cycle since the last read (cycle 61,
counting from 0) performs one again — in general a timer read happens in
cycle `n` iff `n % 61 = 0`.  Each cycle, a timer read occurs iff the
countdown is `≤ 0`, which then resets it to 60; otherwise the countdown is
decremented. -/
theorem telemetry_timer_cadence :
    (readsTimerAt 0 = true ∧ timerUpdateAt 1 = 60) ∧
    (∀ k, 1 ≤ k → k ≤ 60 → readsTimerAt k = false) ∧
    (readsTimerAt 61 = true) ∧
    (∀ n, readsTimerAt n = true ↔ n % 61 = 0) ∧
    (∀ n, (timerUpdateAt n ≤ 0 → readsTimerAt n = true ∧ timerUpdateAt (n + 1) = 60) ∧
      (0 < timerUpdateAt n → readsTimerAt n = false ∧
        timerUpdateAt (n + 1) = timerUpdateAt n - 1)) := by
  refine ⟨⟨?_, ?_⟩, ?_, ?_, ?_, ?_⟩
  · simp [readsTimerAt_eq]
  · simp [timerUpdateAt_closed]
  · intro k h1 h60
    rw [readsTimerAt_eq]
    simp only [decide_eq_false_iff_not]
    omega
  · simp [readsTimerAt_eq]
  · intro n
    rw [readsTimerAt_eq]
    simp [Nat.mod_self]
  · intro n
    constructor
    · intro hle
      refine ⟨(readsTimerAt_iff_le n).mpr hle, ?_⟩
      rw [timerUpdateAt_step, if_pos hle]
    · intro hpos
      have hne : ¬ timerUpdateAt n ≤ 0 := by omega
      refine ⟨?_, ?_⟩
      · have := readsTimerAt_iff_le n
        rcases hb : readsTimerAt n with _ | _
        · rfl
        · exact absurd (this.mp hb) hne
      · rw [timerUpdateAt_step, if_neg hne]

/-- Witness for C2's amended theorem at concrete cycles 5 and 0. -/
theorem telemetry_timer_cadence_witness :
    readsTimerAt 5 = false ∧
    (timerUpdateAt 0 ≤ 0 → readsTimerAt 0 = true ∧ timerUpdateAt (0 + 1) = 60) :=
  ⟨telemetry_timer_cadence.2.1 5 (by decide) (by decide),
   (telemetry_timer_cadence.2.2.2.2 0).1⟩

/-- C3: every error arising inside a poll cycle (a classified ModbusError or
any other exception) is contained in that cycle: no raise kind the body can
produce escapes the two except clauses, every iteration ends in the 1-second
sleep and proceeds to the next, every cycle begins its reads (status is
always attempted) no matter what failed before, a cycle whose reads succeed
attempts status, errors/warnings and analog, and after any failure the timer
group is still read within the next 61 all-success cycles. -/
theorem telemetry_loop_fault_containment (env : Nat → CycleEnv) :
    (∀ s e, (cycle s e).escaped = false ∧ (cycle s e).sleptSeconds = 1) ∧
    (∀ n, Group.status ∈ attemptedAt env n) ∧
    (∀ n, env n = envOk → Group.status ∈ attemptedAt env n ∧
      Group.errorsWarnings ∈ attemptedAt env n ∧ Group.analog ∈ attemptedAt env n) ∧
    (∀ n, (∀ j, j ≤ 60 → env (n + j) = envOk) →
      ∃ k, k ≤ 60 ∧ Group.timer ∈ attemptedAt env (n + k)) := by
  refine ⟨fun s e => cycle_escaped_slept s e,
    fun n => status_mem_attempted _ _, ?_, fun n hok => timer_read_within env n hok⟩
  intro n henv
  unfold attemptedAt cycleAt
  rw [henv, cycle_envOk]
  refine ⟨by simp, by simp, by simp⟩

/-- Witness for C3 under the all-success environment. -/
theorem telemetry_loop_fault_containment_witness :
    Group.status ∈ attemptedAt okEnv 3 ∧
    (∃ k, k ≤ 60 ∧ Group.timer ∈ attemptedAt okEnv (0 + k)) :=
  ⟨(telemetry_loop_fault_containment okEnv).2.1 3,
   (telemetry_loop_fault_containment okEnv).2.2.2 0 (fun _ _ => rfl)⟩

/-- C4: within one session the identity read happens exactly once — in cycle
0, after which `first_run` is cleared — as long as no mid-loop error occurs;
every caught error (ModbusError or any other exception) sets `first_run`
back to true, so identity is read again in the next cycle whose reads all
succeed, which clears `first_run` again. -/
theorem first_run_identity_policy (env : Nat → CycleEnv) :
    (∀ n, (∀ k, k ≤ n → env k = envOk) → (Group.info ∈ attemptedAt env n ↔ n = 0)) ∧
    (∀ s e, (cycle s e).caught.isSome = true → (cycle s e).state.first_run = true) ∧
    (∀ n, (runState env n).first_run = true → env n = envOk →
      Group.info ∈ attemptedAt env n ∧ (runState env (n + 1)).first_run = false) ∧
    (∀ n, (cycleAt env n).caught.isSome = true →
      (runState env (n + 1)).first_run = true) := by
  have hcaught : ∀ s e, (cycle s e).caught.isSome = true →
      (cycle s e).state.first_run = true := by
    intro s e h
    rcases cycle_state_spec s e with ⟨_, hst⟩ | ⟨hnone, _⟩
    · rw [hst]
    · rw [hnone] at h
      simp at h
  refine ⟨?_, hcaught, ?_, ?_⟩
  · intro n hall
    cases n with
    | zero =>
      have henv : env 0 = envOk := hall 0 (by omega)
      unfold attemptedAt cycleAt
      rw [henv]
      have : (runState env 0).first_run = true := rfl
      simp [info_mem_cycle_envOk, this]
    | succ m =>
      have henvm : env m = envOk := hall m (by omega)
      have hfr : (runState env (m + 1)).first_run = false := by
        rw [runState, henvm, cycle_envOk]
      have henv : env (m + 1) = envOk := hall (m + 1) (by omega)
      unfold attemptedAt cycleAt
      rw [henv, info_mem_cycle_envOk, hfr]
      simp
  · intro n hfr henv
    constructor
    · unfold attemptedAt cycleAt
      rw [henv, info_mem_cycle_envOk]
      exact hfr
    · rw [runState, henv, cycle_envOk]
  · intro n h
    exact hcaught (runState env n) (env n) h

/-- Witness for C4: identity is attempted in cycle 0 and not in cycle 2 when
every read succeeds. -/
theorem first_run_identity_policy_witness :
    (Group.info ∈ attemptedAt okEnv 0 ↔ 0 = 0) ∧
    (Group.info ∈ attemptedAt okEnv 2 ↔ 2 = 0) :=
  ⟨(first_run_identity_policy okEnv).1 0 (fun _ _ => rfl),
   (first_run_identity_policy okEnv).1 2 (fun _ _ => rfl)⟩

/-- C5 counterexample: when `connect()` returns `False` during
`begin_start`, the connection failure is logged, but the telemetry task —
the poll loop — is spawned anyway: `asyncio.create_task` on line 151 runs
unconditionally after the `if` on line 148. -/
theorem begin_start_connect_failure_cex :
    (begin_start false).loggedConnectError = true ∧
    (begin_start false).telemetryTaskSpawned = true := by
  exact ⟨rfl, rfl⟩

/-- C5 (amended): a failed initial connect is logged, but it is not terminal
for the session-start attempt: the poll loop is spawned regardless of the
result of `connect()`. -/
theorem begin_start_logs_and_spawns (c : Bool) :
    (begin_start c).telemetryTaskSpawned = true ∧
    ((begin_start c).loggedConnectError = true ↔ c = false) := by
  cases c <;> simp [begin_start]

/-- C6 counterexample: with every register reading 157, the published
compressor volume percentage and stage-1 output temperature are the raw 157
(the claim's scaled subset would give 15.7), while compressor volume — which
the claim lists as unscaled — is divided by 10. -/
theorem update_analog_data_scaling_cex :
    (update_analog_data 157 (fun _ => 157)).compressorVolumePercentage = 157 ∧
    (update_analog_data 157 (fun _ => 157)).stage1OutputTemperature = 157 ∧
    (update_analog_data 157 (fun _ => 157)).compressorVolume = 157 / 10 ∧
    ((157 : ℚ) ≠ 157 / 10) := by
  refine ⟨?_, ?_, ?_, ?_⟩ <;> norm_num [update_analog_data]

/-- C6 (amended): the `/10.0` scaling is applied exactly to motor current,
motor input, power consumption, compressor volume and group volume; the
remaining fields — compressor volume percentage and stage-1 output
temperature among them — are published as raw register values; register
value 157 for the motor current field is published as 15.7. -/
theorem update_analog_data_scaling (a1 : Nat) (r : Fin 14 → Nat) :
    (update_analog_data a1 r).waterLevel = a1 ∧
    (update_analog_data a1 r).targetSpeed = r 0 ∧
    (update_analog_data a1 r).motorCurrent = (r 1 : ℚ) / 10 ∧
    (update_analog_data a1 r).heatsinkTemperature = r 2 ∧
    (update_analog_data a1 r).dclinkVoltage = r 3 ∧
    (update_analog_data a1 r).motorSpeedPercentage = r 4 ∧
    (update_analog_data a1 r).motorSpeedRPM = r 5 ∧
    (update_analog_data a1 r).motorInput = (r 6 : ℚ) / 10 ∧
    (update_analog_data a1 r).compressorPowerConsumption = (r 7 : ℚ) / 10 ∧
    (update_analog_data a1 r).compressorVolumePercentage = r 8 ∧
    (update_analog_data a1 r).compressorVolume = (r 9 : ℚ) / 10 ∧
    (update_analog_data a1 r).groupVolume = (r 10 : ℚ) / 10 ∧
    (update_analog_data a1 r).stage1OutputPressure = r 11 ∧
    (update_analog_data a1 r).linePressure = r 12 ∧
    (update_analog_data a1 r).stage1OutputTemperature = r 13 ∧
    (r 1 = 157 → (update_analog_data a1 r).motorCurrent = 15.7) := by
  refine ⟨rfl, rfl, rfl, rfl, rfl, rfl, rfl, rfl, rfl, rfl, rfl, rfl, rfl, rfl, rfl, ?_⟩
  intro h
  show (r 1 : ℚ) / 10 = 15.7
  rw [h]
  norm_num

/-- Witness for C6's amended theorem: register value 157 published as 15.7. -/
theorem update_analog_data_scaling_witness :
    (update_analog_data 157 (fun _ => 157)).motorCurrent = 15.7 :=
  (update_analog_data_scaling 157
    (fun _ => 157)).2.2.2.2.2.2.2.2.2.2.2.2.2.2.2 rfl

/-- C7 (code-bug evidence): when the 16-register read at `0x63` fails,
`update_errorsWarnings` publishes nothing and raises a `ModbusError` whose
operation name is "Cannot read errors and warnings" but whose address
argument is `0x30` — not the target address `0x63` of the failed read
(source line 218 passes `0x30`). -/
theorem update_errorsWarnings_error_address
    (read : Nat → Nat → Except ExceptionResponse (List Nat)) (e : ExceptionResponse)
    (h : read 0x63 16 = .error e) :
    update_errorsWarnings read = .error ⟨"Cannot read errors and warnings", e, 0x30⟩ ∧
    (0x30 : Nat) ≠ 0x63 := by
  constructor
  · unfold update_errorsWarnings
    rw [h]
  · decide

/-- Witness for C7's theorem on a transport that fails every read. -/
theorem update_errorsWarnings_error_address_witness :
    update_errorsWarnings (fun _ _ => .error ⟨4, 4, 2⟩) =
      .error ⟨"Cannot read errors and warnings", ⟨4, 4, 2⟩, 0x30⟩ ∧
    (0x30 : Nat) ≠ 0x63 :=
  update_errorsWarnings_error_address (fun _ _ => .error ⟨4, 4, 2⟩) ⟨4, 4, 2⟩ rfl

/-- C9: `do_reset` with no client is a no-op success (no write, no fault
signalled, nothing raised); with a client it writes `0xFF01` to `0x12D`, and
on an error response it both calls `self.fail` and raises
`ModbusError("Cannot reset compressor", ..., 0x12D)`. -/
theorem do_reset_spec (w : Nat → Nat → WriteResult) :
    (do_reset none = ⟨none, false, none⟩) ∧
    (w 0x12D 0xFF01 = .ack →
      do_reset (some w) = ⟨some (0x12D, 0xFF01), false, none⟩) ∧
    (∀ e, w 0x12D 0xFF01 = .error e →
      do_reset (some w) =
        ⟨some (0x12D, 0xFF01), true, some ⟨"Cannot reset compressor", e, 0x12D⟩⟩) := by
  refine ⟨rfl, ?_, ?_⟩
  · intro h
    unfold do_reset
    dsimp only
    rw [h]
  · intro e h
    unfold do_reset
    dsimp only
    rw [h]

/-- Witness for C9 on concrete clients. -/
theorem do_reset_spec_witness :
    do_reset (some (fun _ _ => WriteResult.ack)) = ⟨some (0x12D, 0xFF01), false, none⟩ ∧
    do_reset (some (fun _ _ => WriteResult.error ⟨6, 6, 2⟩)) =
      ⟨some (0x12D, 0xFF01), true, some ⟨"Cannot reset compressor", ⟨6, 6, 2⟩, 0x12D⟩⟩ :=
  ⟨(do_reset_spec (fun _ _ => WriteResult.ack)).2.1 rfl,
   (do_reset_spec (fun _ _ => WriteResult.error ⟨6, 6, 2⟩)).2.2 ⟨6, 6, 2⟩ rfl⟩

/-- C10: `end_disable` writes `0xFF00` to `0x12B`; if the write fails the
`ModbusError` is raised before `self.telemetry_task.cancel()` is reached, so
the poll loop is left running; the task is cancelled only after a successful
write. -/
theorem end_disable_raise_before_cancel (w : Nat → Nat → WriteResult) :
    (∀ e, w 0x12B 0xFF00 = .error e →
      (end_disable w).raised = some ⟨"Cannot power off compressor", e, 0x12B⟩ ∧
      (end_disable w).telemetryTaskCancelled = false) ∧
    (w 0x12B 0xFF00 = .ack →
      (end_disable w).raised = none ∧ (end_disable w).telemetryTaskCancelled = true) ∧
    (end_disable w).wrote = (0x12B, 0xFF00) := by
  refine ⟨?_, ?_, ?_⟩
  · intro e h
    unfold end_disable
    rw [h]
    exact ⟨rfl, rfl⟩
  · intro h
    unfold end_disable
    rw [h]
    exact ⟨rfl, rfl⟩
  · unfold end_disable
    rcases hw : w 0x12B 0xFF00 with _ | e <;> rfl

/-- Witness for C10 on concrete clients. -/
theorem end_disable_raise_before_cancel_witness :
    ((end_disable (fun _ _ => WriteResult.error ⟨6, 6, 2⟩)).raised =
        some ⟨"Cannot power off compressor", ⟨6, 6, 2⟩, 0x12B⟩ ∧
      (end_disable (fun _ _ => WriteResult.error ⟨6, 6, 2⟩)).telemetryTaskCancelled
        = false) ∧
    ((end_disable (fun _ _ => WriteResult.ack)).raised = none ∧
      (end_disable (fun _ _ => WriteResult.ack)).telemetryTaskCancelled = true) :=
  ⟨(end_disable_raise_before_cancel (fun _ _ => WriteResult.error ⟨6, 6, 2⟩)).1
      ⟨6, 6, 2⟩ rfl,
   (end_disable_raise_before_cancel (fun _ _ => WriteResult.ack)).2.1 rfl⟩

/-- Two string concatenations differ whenever their left parts disagree at a
character position each of them covers. -/
lemma append_ne_of_ne_at (s t x y : String) (i : Nat) (c d : Char)
    (hs : s.data[i]? = some c) (ht : t.data[i]? = some d) (hcd : c ≠ d) :
    s ++ x ≠ t ++ y := by
  intro h
  obtain ⟨his, _⟩ := List.getElem?_eq_some.mp hs
  obtain ⟨hit, _⟩ := List.getElem?_eq_some.mp ht
  have hd : (s ++ x).data = (t ++ y).data := by rw [h]
  rw [String.data_append, String.data_append] at hd
  have h1 : (s.data ++ x.data)[i]? = some c := by
    rw [List.getElem?_append_left his]
    exact hs
  have h2 : (t.data ++ y.data)[i]? = some d := by
    rw [List.getElem?_append_left hit]
    exact ht
  rw [hd, h2] at h1
  exact hcd (Option.some.inj h1.symm)

/-- C8: the ModbusError classification distinguishes the originating
function code: a function-code-6 (write) exception produces the
write-classified message `Cannot write register address 0x...`, which is
distinct from the read-classified message of a function-code-4 exception at
the same address, and any other function code produces a third, distinct
message form — for every address and every exception code. -/
theorem modbusError_classification (address : Nat) (e₄ e₆ eo : ExceptionResponse)
    (h4 : e₄.original_code = 4) (h6 : e₆.original_code = 6)
    (ho4 : eo.original_code ≠ 4) (ho6 : eo.original_code ≠ 6) :
    modbusErrorMessage e₆ address
      = "Cannot write register address 0x" ++ hex4 address ++ ": "
          ++ decStr e₆.exception_code ∧
    modbusErrorMessage e₄ address ≠ modbusErrorMessage e₆ address ∧
    modbusErrorMessage e₄ address ≠ modbusErrorMessage eo address ∧
    modbusErrorMessage e₆ address ≠ modbusErrorMessage eo address := by
  have hm4 : modbusErrorMessage e₄ address
      = "Cannot address 0x" ++ (hex4 address ++ (": " ++ decStr e₄.exception_code)) := by
    unfold modbusErrorMessage
    rw [if_pos h4, String.append_assoc, String.append_assoc]
  have hm6 : modbusErrorMessage e₆ address
      = "Cannot write register address 0x"
          ++ (hex4 address ++ (": " ++ decStr e₆.exception_code)) := by
    unfold modbusErrorMessage
    rw [if_neg (by omega), if_pos h6, String.append_assoc, String.append_assoc]
  have hmo : modbusErrorMessage eo address
      = "Cannot call function "
          ++ (decStr eo.function_code ++ (" : " ++ (decStr eo.exception_code
              ++ (", address 0x" ++ hex4 address)))) := by
    unfold modbusErrorMessage
    rw [if_neg ho4, if_neg ho6, String.append_assoc, String.append_assoc,
      String.append_assoc, String.append_assoc]
  refine ⟨by rw [hm6]; simp [String.append_assoc], ?_, ?_, ?_⟩
  · rw [hm4, hm6]
    exact append_ne_of_ne_at _ _ _ _ 7 'a' 'w' (by decide) (by decide) (by decide)
  · rw [hm4, hmo]
    exact append_ne_of_ne_at _ _ _ _ 7 'a' 'c' (by decide) (by decide) (by decide)
  · rw [hm6, hmo]
    exact append_ne_of_ne_at _ _ _ _ 7 'w' 'c' (by decide) (by decide) (by decide)

/-- Witness for C8 at address `0x12B` with concrete exception responses. -/
theorem modbusError_classification_witness :
    modbusErrorMessage ⟨6, 6, 3⟩ 0x12B
      = "Cannot write register address 0x" ++ hex4 0x12B ++ ": " ++ decStr 3 ∧
    modbusErrorMessage ⟨4, 4, 2⟩ 0x12B ≠ modbusErrorMessage ⟨6, 6, 3⟩ 0x12B ∧
    modbusErrorMessage ⟨4, 4, 2⟩ 0x12B ≠ modbusErrorMessage ⟨16, 16, 1⟩ 0x12B ∧
    modbusErrorMessage ⟨6, 6, 3⟩ 0x12B ≠ modbusErrorMessage ⟨16, 16, 1⟩ 0x12B :=
  modbusError_classification 0x12B ⟨4, 4, 2⟩ ⟨6, 6, 3⟩ ⟨16, 16, 1⟩ rfl rfl
    (by decide) (by decide)

end MTAirCompressor
